import Mathlib

/-!
Shallow embedding of the inference server (`src/ai/src/inference/app.py`) and
the training script (`src/ai/src/sagemaker/train_script.py`).

Numbers that are Python floats are modelled as rationals (ℚ); the handlers
perform no arithmetic on them, they only move them around.  A scikit-learn
classifier is opaque to the repository, so it is modelled as a structure
`SkModel` of its observable interface: an expected input width
(`n_features_in`, checked by the library before predicting), a class count,
and the two fallible calls `predict` / `predict_proba` that may raise
(modelled as `Except String`).  Python exceptions escaping a handler are the
`HTTPException` error channel of `Except`.
-/

/-- A Python `HTTPException(status_code=..., detail=...)`. -/
structure HTTPException where
  status_code : Nat
  detail : String
deriving DecidableEq, Repr

/-- Request schema for predictions (`PredictionRequest` in `app.py`):
a JSON body with a list of floats under the key `features`. -/
structure PredictionRequest where
  features : List ℚ
deriving DecidableEq, Repr

/-- Response schema for predictions (`PredictionResponse` in `app.py`):
an integer prediction plus the list of class probabilities. -/
structure PredictionResponse where
  prediction : Int
  probability : List ℚ
deriving DecidableEq, Repr

/-- Opaque scikit-learn classifier as seen by `app.py`: the artifact
deserialized from `model.joblib`.  `predict` and `predict_proba` act on one
row of features and may raise (`.error`), mirroring that any exception from
the model call propagates to the caller. -/
structure SkModel where
  n_features_in : Nat
  n_classes : Nat
  predict : List ℚ → Except String ℚ
  predict_proba : List ℚ → Except String (List ℚ)

/-- `np.array(xs).reshape(1, -1)`: a flat list of `n` floats becomes a
`1 × n` matrix whose single row is the list itself, order preserved.  This
never fails for a flat list. -/
def reshapeRow (xs : List ℚ) : List (List ℚ) := [xs]

/-- The error text scikit-learn raises on a feature-count mismatch. -/
def shapeError (got expected : Nat) : String :=
  "X has " ++ toString got ++ " features, but the model is expecting " ++
    toString expected ++ " features as input."

/-- `model.predict(X)` on a batch: the library first validates that every
row has the model's expected feature count and raises otherwise; then each
row is predicted (each row prediction may itself raise). -/
def SkModel.predictBatch (m : SkModel) (X : List (List ℚ)) :
    Except String (List ℚ) :=
  if X.all fun row => row.length == m.n_features_in then
    X.mapM m.predict
  else
    .error (shapeError (X.headD []).length m.n_features_in)

/-- `model.predict_proba(X)` on a batch, with the same shape validation. -/
def SkModel.predictProbaBatch (m : SkModel) (X : List (List ℚ)) :
    Except String (List (List ℚ)) :=
  if X.all fun row => row.length == m.n_features_in then
    X.mapM m.predict_proba
  else
    .error (shapeError (X.headD []).length m.n_features_in)

/-- Python `int(...)` on a numeric value: truncation toward zero. -/
def pyInt (q : ℚ) : Int := q.num.tdiv q.den

/-- The `POST /invocations` handler (`predict` in `app.py`), instrumented
with a count of how many model calls (`model.predict`,
`model.predict_proba`) were started.  Control flow mirrors the source line
by line: a `None` model short-circuits to 503 before any model call; the
features are reshaped to a single row; `int(model.predict(features)[0])`
then `model.predict_proba(features)[0].tolist()`; any exception in the
`try` block becomes a 400 with detail `"Prediction error: ..."`. -/
def predictWithCalls (model : Option SkModel) (request : PredictionRequest) :
    Except HTTPException PredictionResponse × Nat :=
  match model with
  | none => (.error { status_code := 503, detail := "Model not loaded" }, 0)
  | some m =>
    let features := reshapeRow request.features
    match m.predictBatch features with
    | .error e =>
      (.error { status_code := 400, detail := "Prediction error: " ++ e }, 1)
    | .ok labels =>
      match labels[0]? with
      | none =>
        (.error { status_code := 400,
                  detail := "Prediction error: list index out of range" }, 1)
      | some label0 =>
        match m.predictProbaBatch features with
        | .error e =>
          (.error { status_code := 400,
                    detail := "Prediction error: " ++ e }, 2)
        | .ok probas =>
          match probas[0]? with
          | none =>
            (.error { status_code := 400,
                      detail := "Prediction error: list index out of range" },
             2)
          | some proba0 =>
            (.ok { prediction := pyInt label0, probability := proba0 }, 2)

/-- The result of `POST /invocations`. -/
def predict (model : Option SkModel) (request : PredictionRequest) :
    Except HTTPException PredictionResponse :=
  (predictWithCalls model request).1

/-- How many model calls `POST /invocations` starts on this request. -/
def predictCalls (model : Option SkModel) (request : PredictionRequest) :
    Nat :=
  (predictWithCalls model request).2

/-- The `GET /ping` handler (`health_check` in `app.py`). -/
def health_check (model : Option SkModel) :
    Except HTTPException (List (String × String)) :=
  match model with
  | none => .error { status_code := 503, detail := "Model not loaded" }
  | some _ => .ok [("status", "healthy")]

/-- The `GET /` handler (`root` in `app.py`). -/
def root : List (String × String) :=
  [("message", "SageMaker Inference API"), ("docs", "/docs")]

/-- The startup hook (`load_model` in `app.py`).  `loadResult` is the
outcome of `joblib.load("/opt/ml/model/model.joblib")`; on success the
global holder is assigned, on an exception the holder is left as it was and
a warning is logged.  Returns the new holder and the log lines printed. -/
def load_model (loadResult : Except String SkModel)
    (model : Option SkModel) : Option SkModel × List String :=
  match loadResult with
  | .ok m => (some m, ["Model loaded successfully"])
  | .error e =>
    (model, ["Warning: Could not load model: " ++ e,
             "Using dummy model for testing"])

/-- The module-level initial value of the holder: `model = None`. -/
def initialModel : Option SkModel := none

/-- The holder right after startup: `load_model` applied once to the
initial `None`. -/
def startupModel (loadResult : Except String SkModel) : Option SkModel :=
  (load_model loadResult initialModel).1

/-- An incoming HTTP request to one of the three routes of `app.py`. -/
inductive Request where
  | ping : Request
  | invocations : PredictionRequest → Request
  | rootReq : Request

/-- The response produced by the matching handler. -/
inductive HandlerOutput where
  | pingResp : Except HTTPException (List (String × String)) → HandlerOutput
  | invocationsResp : Except HTTPException PredictionResponse → HandlerOutput
  | rootResp : List (String × String) → HandlerOutput

/-- Dispatch one request to its handler.  The first component is the model
holder after the request: no handler in `app.py` assigns the `model`
global, so each handler reads the holder and passes it through. -/
def handle (model : Option SkModel) : Request → Option SkModel × HandlerOutput
  | .ping => (model, .pingResp (health_check model))
  | .invocations r => (model, .invocationsResp (predict model r))
  | .rootReq => (model, .rootResp root)

/-- Serve a sequence of requests, threading the model holder through, and
return the outputs together with the final holder. -/
def runRequests : Option SkModel → List Request →
    List HandlerOutput × Option SkModel
  | model, [] => ([], model)
  | model, r :: rs =>
    let step := handle model r
    let rest := runRequests step.1 rs
    (step.2 :: rest.1, rest.2)

/-- One process lifetime: startup load once, then serve every request. -/
def processRun (loadResult : Except String SkModel) (reqs : List Request) :
    List HandlerOutput × Option SkModel :=
  runRequests (startupModel loadResult) reqs

/-!
Embedding of the training script (`src/ai/src/sagemaker/train_script.py`).
The filesystem is a map from paths to CSV tables (a table is a list of
rows, each row a list of rationals).  `RandomForestClassifier` is external
library code, so fitting is an opaque parameter `fit` taking the three
hyperparameters and the training matrix and labels, and returning a
per-row predictor.  The script's observable output is the ordered list of
files it writes.
-/

/-- `os.path.join(a, b)` for the paths this script builds: every first
argument is a non-empty directory without a trailing slash and every second
argument a relative file name, so the join inserts one separator. -/
def pathJoin (a b : String) : String := a ++ "/" ++ b

/-- Parsed command-line arguments of the training script
(`parse_args`): hyperparameters and SageMaker directories. -/
structure Args where
  n_estimators : Nat
  max_depth : Nat
  random_state : Nat
  model_dir : String
  train : String
  test : String
  output_data_dir : String

/-- `load_data`: read `train.csv` from the train channel and `test.csv`
from the test channel; a missing file is an exception (`none`). -/
def load_data (fs : String → Option (List (List ℚ)))
    (train_dir test_dir : String) :
    Option (List (List ℚ) × List (List ℚ)) := do
  let train_df ← fs (pathJoin train_dir "train.csv")
  let test_df ← fs (pathJoin test_dir "test.csv")
  pure (train_df, test_df)

/-- `sklearn.metrics.accuracy_score`: the fraction of positions where
prediction equals truth. -/
def accuracy_score (yTrue yPred : List ℚ) : ℚ :=
  (((yTrue.zip yPred).countP fun p => p.1 == p.2 : ℕ) : ℚ) / yTrue.length

/-- What the training script writes to a path. -/
inductive FileContent where
  | metricsJson : ℚ → ℚ → FileContent
  | modelJoblib : (List ℚ → ℚ) → FileContent

/-- The JSON metrics object `{"train_accuracy": ..., "test_accuracy": ...}`
written by `train_model`. -/
def FileContent.isMetrics : FileContent → Bool
  | .metricsJson _ _ => true
  | .modelJoblib _ => false

/-- `train_model`: load the data, split features (all but the last column)
from the target (the last column), fit, score both splits, and write
`metrics.json` under the output data directory.  Returns the fitted model
and the write performed, or `none` if loading the data raised. -/
def train_model (fit : Nat → Nat → Nat → List (List ℚ) → List ℚ →
      (List ℚ → ℚ))
    (fs : String → Option (List (List ℚ))) (args : Args) :
    Option ((List ℚ → ℚ) × (String × FileContent)) := do
  let data ← load_data fs args.train args.test
  let train_df := data.1
  let test_df := data.2
  let X_train := train_df.map List.dropLast
  let y_train := train_df.map fun r => r.getLastD 0
  let X_test := test_df.map List.dropLast
  let y_test := test_df.map fun r => r.getLastD 0
  let model := fit args.n_estimators args.max_depth args.random_state
    X_train y_train
  let train_preds := X_train.map model
  let test_preds := X_test.map model
  let train_acc := accuracy_score y_train train_preds
  let test_acc := accuracy_score y_test test_preds
  pure (model, (pathJoin args.output_data_dir "metrics.json",
    .metricsJson train_acc test_acc))

/-- `save_model`: dump the fitted model to `model.joblib` under the model
directory. -/
def save_model (model : List ℚ → ℚ) (model_dir : String) :
    String × FileContent :=
  (pathJoin model_dir "model.joblib", .modelJoblib model)

/-- The script's `__main__` block: `train_model` then `save_model`;
the result is the ordered list of file writes of a successful run. -/
def trainingMain (fit : Nat → Nat → Nat → List (List ℚ) → List ℚ →
      (List ℚ → ℚ))
    (fs : String → Option (List (List ℚ))) (args : Args) :
    Option (List (String × FileContent)) := do
  let step ← train_model fit fs args
  pure [step.2, save_model step.1 args.model_dir]

/-!
A concrete model and concrete runs, used by the witnesses: a 4-feature,
2-class classifier in the shape of the spec's worked example.
-/

/-- A concrete classifier: expects 4 features, distinguishes 2 classes,
labels a row by its first feature and always reports probabilities
`[1/2, 1/2]`. -/
def dummyModel : SkModel where
  n_features_in := 4
  n_classes := 2
  predict := fun xs => .ok (xs.headD 0)
  predict_proba := fun _ => .ok [1/2, 1/2]

/-- A concrete stand-in for `RandomForestClassifier` fitting: ignores the
hyperparameters and data and predicts 0 everywhere. -/
def cFit : Nat → Nat → Nat → List (List ℚ) → List ℚ → (List ℚ → ℚ) :=
  fun _ _ _ _ _ => fun _ => 0

/-- A concrete filesystem holding a two-row training CSV and a one-row
test CSV, each with one feature column and a target column. -/
def cFs : String → Option (List (List ℚ)) := fun p =>
  if p = "t/train.csv" then some [[1, 0], [2, 0]]
  else if p = "s/test.csv" then some [[3, 0]]
  else none

/-- Concrete training arguments (the script's default hyperparameters,
short directory names). -/
def cArgs : Args :=
  { n_estimators := 100, max_depth := 10, random_state := 42,
    model_dir := "m", train := "t", test := "s", output_data_dir := "o" }

/-!
Helper lemmas shared by the claim theorems.
-/

theorem handle_fst (model : Option SkModel) (r : Request) :
    (handle model r).1 = model := by
  cases r <;> rfl

theorem runRequests_eq (model : Option SkModel) (reqs : List Request) :
    runRequests model reqs =
      (reqs.map fun r => (handle model r).2, model) := by
  induction reqs with
  | nil => rfl
  | cons r rs ih =>
    simp only [runRequests, handle_fst, ih, List.map_cons]

/-- C2: while the Model Holder is empty, every `POST /invocations` request
returns the 503 service-unavailable error with detail "Model not loaded",
starts zero model calls, and never returns a prediction. -/
theorem invocations_unloaded_returns_503 (r : PredictionRequest) :
    predict none r = .error ⟨503, "Model not loaded"⟩ ∧
    predictCalls none r = 0 :=
  ⟨rfl, rfl⟩

/-- C3: `GET /ping` returns the healthy status exactly when the Model
Holder is non-empty, and returns the 503 service-unavailable error when
the model is `None`. -/
theorem ping_healthy_iff_loaded :
    (∀ m : SkModel, health_check (some m) = .ok [("status", "healthy")]) ∧
    health_check none = .error ⟨503, "Model not loaded"⟩ ∧
    ∀ model : Option SkModel,
      (health_check model).toOption.isSome = model.isSome := by
  refine ⟨fun m => rfl, rfl, fun model => ?_⟩
  cases model <;> rfl

/-- C8: the Response Formatter is the plain `PredictionResponse`
constructor: for every label and probability vector it succeeds and
returns them unchanged in the `prediction` and `probability` fields. -/
theorem response_formatter_pure (label : Int) (proba : List ℚ) :
    (PredictionResponse.mk label proba).prediction = label ∧
    (PredictionResponse.mk label proba).probability = proba :=
  ⟨rfl, rfl⟩

/-- C6: the model load happens once at startup and is best-effort: a load
failure is caught and logged with a warning, the holder stays `None`, and
the process goes on to answer every subsequent request; a successful load
fills the holder. -/
theorem load_model_once_best_effort :
    (∀ e : String,
      startupModel (.error e) = none ∧
      "Warning: Could not load model: " ++ e ∈
        (load_model (.error e) initialModel).2) ∧
    (∀ m : SkModel, startupModel (.ok m) = some m) ∧
    (∀ (e : String) (reqs : List Request),
      (processRun (.error e) reqs).1.length = reqs.length) := by
  refine ⟨fun e => ⟨rfl, ?_⟩, fun m => rfl, fun e reqs => ?_⟩
  · simp [load_model, initialModel]
  · simp [processRun, runRequests_eq]

/-- C7: the Model Holder is read-only after startup: each of the three
request handlers passes the holder through unchanged, an entire run of
requests neither alters the holder nor lets any request observe a holder
different from the startup one, and the only startup transitions are
unloaded-to-loaded and unloaded-to-load-failed. -/
theorem model_holder_read_only :
    (∀ (model : Option SkModel) (r : Request),
      (handle model r).1 = model) ∧
    (∀ (model : Option SkModel) (reqs : List Request),
      (runRequests model reqs).2 = model ∧
      (runRequests model reqs).1 = reqs.map fun r => (handle model r).2) ∧
    (∀ (lr : Except String SkModel) (reqs : List Request),
      (processRun lr reqs).2 = startupModel lr) ∧
    (∀ e : String, startupModel (.error e) = initialModel) ∧
    (∀ m : SkModel, startupModel (.ok m) = some m) := by
  refine ⟨handle_fst, fun model reqs => ?_, fun lr reqs => ?_,
    fun e => rfl, fun m => rfl⟩
  · rw [runRequests_eq]
    exact ⟨rfl, rfl⟩
  · simp [processRun, runRequests_eq]

theorem predictBatch_singleton (m : SkModel) (xs : List ℚ)
    (hdim : xs.length = m.n_features_in) :
    m.predictBatch [xs] = (m.predict xs).map fun l => [l] := by
  cases hl : m.predict xs with
  | error e =>
    simp [SkModel.predictBatch, List.mapM, List.mapM.loop, hdim, hl,
      Except.map]
  | ok l =>
    simp [SkModel.predictBatch, List.mapM, List.mapM.loop, hdim, hl,
      Except.map]

theorem predictProbaBatch_singleton (m : SkModel) (xs : List ℚ)
    (hdim : xs.length = m.n_features_in) :
    m.predictProbaBatch [xs] = (m.predict_proba xs).map fun ps => [ps] := by
  cases hp : m.predict_proba xs with
  | error e =>
    simp [SkModel.predictProbaBatch, List.mapM, List.mapM.loop, hdim, hp,
      Except.map]
  | ok ps =>
    simp [SkModel.predictProbaBatch, List.mapM, List.mapM.loop, hdim, hp,
      Except.map]

theorem predict_ok_of_model_ok (m : SkModel) (xs : List ℚ)
    (label : ℚ) (ps : List ℚ)
    (hdim : xs.length = m.n_features_in)
    (hl : m.predict xs = .ok label)
    (hp : m.predict_proba xs = .ok ps) :
    predict (some m) ⟨xs⟩ = .ok ⟨pyInt label, ps⟩ := by
  simp [predict, predictWithCalls, reshapeRow,
    predictBatch_singleton m xs hdim, predictProbaBatch_singleton m xs hdim,
    hl, hp, Except.map]

theorem predict_shape_mismatch (m : SkModel) (xs : List ℚ)
    (h : xs.length ≠ m.n_features_in) :
    predict (some m) ⟨xs⟩ =
      .error ⟨400, "Prediction error: " ++
        shapeError xs.length m.n_features_in⟩ := by
  simp [predict, predictWithCalls, SkModel.predictBatch, reshapeRow, h]

/-- C4: a feature vector whose length the loaded model rejects yields the
400 bad-input error carrying the model's shape message; any exception the
model raises in either model call also becomes a 400; and the handler is
total — every request ends in a response or in a 503/400 error, never in a
crash of the process. -/
theorem invocations_bad_input_never_crash :
    (∀ (m : SkModel) (xs : List ℚ), xs.length ≠ m.n_features_in →
      predict (some m) ⟨xs⟩ =
        .error ⟨400, "Prediction error: " ++
          shapeError xs.length m.n_features_in⟩) ∧
    (∀ (m : SkModel) (xs : List ℚ) (e : String),
      xs.length = m.n_features_in → m.predict xs = .error e →
      predict (some m) ⟨xs⟩ = .error ⟨400, "Prediction error: " ++ e⟩) ∧
    (∀ (m : SkModel) (xs : List ℚ) (label : ℚ) (e : String),
      xs.length = m.n_features_in → m.predict xs = .ok label →
      m.predict_proba xs = .error e →
      predict (some m) ⟨xs⟩ = .error ⟨400, "Prediction error: " ++ e⟩) ∧
    (∀ (model : Option SkModel) (r : PredictionRequest),
      (∃ resp, predict model r = .ok resp) ∨
      ∃ err, predict model r = .error err ∧
        (err.status_code = 503 ∨ err.status_code = 400)) := by
  refine ⟨predict_shape_mismatch,
    fun m xs e hdim hl => ?_, fun m xs label e hdim hl hp => ?_,
    fun model r => ?_⟩
  · simp [predict, predictWithCalls, reshapeRow,
      predictBatch_singleton m xs hdim, hl, Except.map]
  · simp [predict, predictWithCalls, reshapeRow,
      predictBatch_singleton m xs hdim, predictProbaBatch_singleton m xs hdim,
      hl, hp, Except.map]
  · cases model with
    | none => exact Or.inr ⟨⟨503, "Model not loaded"⟩, rfl, Or.inl rfl⟩
    | some m =>
      cases hb : m.predictBatch (reshapeRow r.features) with
      | error e =>
        exact Or.inr ⟨⟨400, "Prediction error: " ++ e⟩,
          by simp [predict, predictWithCalls, hb], Or.inr rfl⟩
      | ok labels =>
        cases h0 : labels[0]? with
        | none =>
          exact Or.inr ⟨⟨400, "Prediction error: list index out of range"⟩,
            by simp [predict, predictWithCalls, hb, h0], Or.inr rfl⟩
        | some label0 =>
          cases hpb : m.predictProbaBatch (reshapeRow r.features) with
          | error e =>
            exact Or.inr ⟨⟨400, "Prediction error: " ++ e⟩,
              by simp [predict, predictWithCalls, hb, h0, hpb], Or.inr rfl⟩
          | ok probas =>
            cases hq : probas[0]? with
            | none =>
              exact Or.inr
                ⟨⟨400, "Prediction error: list index out of range"⟩,
                  by simp [predict, predictWithCalls, hb, h0, hpb, hq],
                  Or.inr rfl⟩
            | some proba0 =>
              exact Or.inl ⟨⟨pyInt label0, proba0⟩,
                by simp [predict, predictWithCalls, hb, h0, hpb, hq]⟩

/-- Witness for C4 at concrete inputs: a 2-feature vector against the
4-feature `dummyModel` produces exactly the 400 shape error. -/
theorem invocations_bad_input_never_crash_witness :
    predict (some dummyModel) ⟨[1, 2]⟩ =
      .error ⟨400, "Prediction error: " ++ shapeError 2 4⟩ :=
  invocations_bad_input_never_crash.1 dummyModel [1, 2] (by decide)

/-- C5: the handler reshapes the feature sequence into one row that is the
sequence itself (order and length preserved); when the loaded model accepts
it, the response is exactly the integer conversion of the first element of
`model.predict` and the first row of `model.predict_proba`; when the model
rejects the shape, the request fails with the 400 invalid-input error. -/
theorem invocations_predict_pipeline :
    (∀ xs : List ℚ, reshapeRow xs = [xs]) ∧
    (∀ (m : SkModel) (xs : List ℚ) (label : ℚ) (ps : List ℚ),
      xs.length = m.n_features_in →
      m.predict xs = .ok label →
      m.predict_proba xs = .ok ps →
      predict (some m) ⟨xs⟩ = .ok ⟨pyInt label, ps⟩) ∧
    (∀ (m : SkModel) (xs : List ℚ), xs.length ≠ m.n_features_in →
      ∃ d, predict (some m) ⟨xs⟩ = .error ⟨400, d⟩) := by
  refine ⟨fun xs => rfl, predict_ok_of_model_ok, fun m xs h => ?_⟩
  exact ⟨_, predict_shape_mismatch m xs h⟩

/-- Witness for C5 at concrete inputs: `dummyModel` on `[1, 2, 3, 4]`
answers label 1 with probabilities `[1/2, 1/2]`, and on the too-short
`[1, 2]` fails with a 400 error. -/
theorem invocations_predict_pipeline_witness :
    predict (some dummyModel) ⟨[1, 2, 3, 4]⟩ =
      .ok ⟨1, [1/2, 1/2]⟩ ∧
    ∃ d, predict (some dummyModel) ⟨[1, 2]⟩ = .error ⟨400, d⟩ :=
  ⟨invocations_predict_pipeline.2.1 dummyModel [1, 2, 3, 4] 1 [1/2, 1/2]
      (by decide) rfl rfl,
    invocations_predict_pipeline.2.2 dummyModel [1, 2] (by decide)⟩

/-- C1: against a loaded model whose two calls succeed on every vector of
its expected width and whose probability rows have one entry per class and
sum to 1 within 1e-6 (what scikit-learn guarantees for a fitted
classifier), `POST /invocations` on any vector of the expected width
returns a response whose probability list has length `n_classes` and sums
to 1 within 1e-6. -/
theorem invocations_probabilities_wellformed (m : SkModel) (xs : List ℚ)
    (hpredOk : ∀ v : List ℚ, v.length = m.n_features_in →
      ∃ l, m.predict v = .ok l)
    (hprobaOk : ∀ v : List ℚ, v.length = m.n_features_in →
      ∃ ps, m.predict_proba v = .ok ps ∧ ps.length = m.n_classes ∧
        |ps.sum - 1| ≤ 1 / 1000000)
    (hdim : xs.length = m.n_features_in) :
    ∃ resp, predict (some m) ⟨xs⟩ = .ok resp ∧
      resp.probability.length = m.n_classes ∧
      |resp.probability.sum - 1| ≤ 1 / 1000000 := by
  obtain ⟨label, hl⟩ := hpredOk xs hdim
  obtain ⟨ps, hp, hlen, hsum⟩ := hprobaOk xs hdim
  exact ⟨⟨pyInt label, ps⟩, predict_ok_of_model_ok m xs label ps hdim hl hp,
    hlen, hsum⟩

/-- Witness for C1 at a concrete input: `dummyModel` with `[1, 2, 3, 4]`,
whose probability rows are always `[1/2, 1/2]`. -/
theorem invocations_probabilities_wellformed_witness :
    ∃ resp, predict (some dummyModel) ⟨[1, 2, 3, 4]⟩ = .ok resp ∧
      resp.probability.length = dummyModel.n_classes ∧
      |resp.probability.sum - 1| ≤ 1 / 1000000 :=
  invocations_probabilities_wellformed dummyModel [1, 2, 3, 4]
    (fun v _ => ⟨v.headD 0, rfl⟩)
    (fun v _ => ⟨[1/2, 1/2], rfl, rfl, by
      simp [List.sum_cons, List.sum_nil]
      norm_num⟩)
    (by decide)

/-- C10: the handler itself never checks the feature list: with a loaded
model expecting at least one feature, an empty list reaches the model call
(the call count is 1), the model's shape exception is converted to the 400
bad-input error, and no prediction is returned; with no model loaded the
count stays 0. -/
theorem invocations_empty_features_passthrough (m : SkModel)
    (h : 0 < m.n_features_in) :
    predict (some m) ⟨[]⟩ =
      .error ⟨400, "Prediction error: " ++
        shapeError 0 m.n_features_in⟩ ∧
    predictCalls (some m) ⟨[]⟩ = 1 ∧
    predictCalls none ⟨[]⟩ = 0 := by
  have hne : ([] : List ℚ).length ≠ m.n_features_in := by
    simpa using Nat.ne_of_lt h
  have h0 : ¬(0 = m.n_features_in) := Nat.ne_of_lt h
  refine ⟨predict_shape_mismatch m [] hne, ?_, rfl⟩
  simp [predictCalls, predictWithCalls, SkModel.predictBatch, reshapeRow,
    h0]

/-- Witness for C10 at a concrete model: `dummyModel` expects 4 features. -/
theorem invocations_empty_features_passthrough_witness :
    predict (some dummyModel) ⟨[]⟩ =
      .error ⟨400, "Prediction error: " ++ shapeError 0 4⟩ ∧
    predictCalls (some dummyModel) ⟨[]⟩ = 1 ∧
    predictCalls none ⟨[]⟩ = 0 :=
  invocations_empty_features_passthrough dummyModel (by decide)

/-- C9: a successful run of the training script performs exactly two file
writes, in order: the metrics JSON object holding the train and the test
accuracy at `metrics.json` under the output data directory, and the fitted
model artifact at `model.joblib` under the model directory. -/
theorem training_writes_fixed_paths
    (fit : Nat → Nat → Nat → List (List ℚ) → List ℚ → (List ℚ → ℚ))
    (fs : String → Option (List (List ℚ))) (args : Args)
    (df1 df2 : List (List ℚ))
    (h : load_data fs args.train args.test = some (df1, df2)) :
    trainingMain fit fs args = some
      [(pathJoin args.output_data_dir "metrics.json",
        FileContent.metricsJson
          (accuracy_score (df1.map fun r => r.getLastD 0)
            ((df1.map List.dropLast).map
              (fit args.n_estimators args.max_depth args.random_state
                (df1.map List.dropLast) (df1.map fun r => r.getLastD 0))))
          (accuracy_score (df2.map fun r => r.getLastD 0)
            ((df2.map List.dropLast).map
              (fit args.n_estimators args.max_depth args.random_state
                (df1.map List.dropLast)
                (df1.map fun r => r.getLastD 0))))),
       (pathJoin args.model_dir "model.joblib",
        FileContent.modelJoblib
          (fit args.n_estimators args.max_depth args.random_state
            (df1.map List.dropLast) (df1.map fun r => r.getLastD 0)))] := by
  simp [trainingMain, train_model, h, save_model]

/-- Witness for C9 at a concrete run: fitting with `cFit` over the
two-row `cFs` data writes `o/metrics.json` then `m/model.joblib`. -/
theorem training_writes_fixed_paths_witness :
    trainingMain cFit cFs cArgs = some
      [(pathJoin cArgs.output_data_dir "metrics.json",
        FileContent.metricsJson
          (accuracy_score
            (([[1, 0], [2, 0]] : List (List ℚ)).map fun r => r.getLastD 0)
            ((([[1, 0], [2, 0]] : List (List ℚ)).map List.dropLast).map
              (cFit cArgs.n_estimators cArgs.max_depth cArgs.random_state
                (([[1, 0], [2, 0]] : List (List ℚ)).map List.dropLast)
                (([[1, 0], [2, 0]] : List (List ℚ)).map fun r =>
                  r.getLastD 0))))
          (accuracy_score
            (([[3, 0]] : List (List ℚ)).map fun r => r.getLastD 0)
            ((([[3, 0]] : List (List ℚ)).map List.dropLast).map
              (cFit cArgs.n_estimators cArgs.max_depth cArgs.random_state
                (([[1, 0], [2, 0]] : List (List ℚ)).map List.dropLast)
                (([[1, 0], [2, 0]] : List (List ℚ)).map fun r =>
                  r.getLastD 0))))),
       (pathJoin cArgs.model_dir "model.joblib",
        FileContent.modelJoblib
          (cFit cArgs.n_estimators cArgs.max_depth cArgs.random_state
            (([[1, 0], [2, 0]] : List (List ℚ)).map List.dropLast)
            (([[1, 0], [2, 0]] : List (List ℚ)).map fun r =>
              r.getLastD 0)))] :=
  training_writes_fixed_paths cFit cFs cArgs [[1, 0], [2, 0]] [[3, 0]]
    (by decide)
